import Mathlib

/-!
Shallow embedding of `src/main.cpp` (FLTK + OpenCV camera viewer).

The program is a single-threaded, timer-driven GUI application.  External
collaborators (the camera device, OpenCV decode/resize/cvtColor, FLTK
widgets, file I/O) are modelled by oracle parameters: each device read-back,
each capture/decode outcome and each file-write outcome is an input to the
corresponding Lean function, and the function computes exactly what the C++
code computes from those inputs.

Machine `int` values are modelled as `Int`, C++ `double` frame rates as `ℚ`
(the probing logic only compares, subtracts and takes absolute values, which
are exact in the magnitudes involved).
-/

/-- One pixel: three 8-bit channels in storage order. -/
abbrev Pixel := Nat × Nat × Nat

/-- A `cv::Mat` image: `rows`/`cols` as in OpenCV, plus the pixel data in
storage order.  A default-constructed `cv::Mat` is `⟨0, 0, []⟩`. -/
structure Mat where
  rows : Int
  cols : Int
  pixels : List Pixel
deriving DecidableEq, Repr

/-- `cv::Mat::empty()`: true iff the matrix has no elements
(`total() == 0`, i.e. a zero dimension or no allocated data). -/
def Mat.isEmpty (m : Mat) : Bool :=
  m.rows == 0 || m.cols == 0

/-- `cv::Mat::create(h, w, CV_8UC3)`: allocates an `h × w` matrix  WITHOUT
initialising its contents; the arbitrary memory contents are passed in as
the oracle parameter `data`. -/
def Mat.create (h w : Int) (data : List Pixel) : Mat :=
  ⟨h, w, data⟩

/-- `cv::resize(src, dst, Size(w, h))` (external library): the output has
exactly the requested dimensions; the interpolated contents are opaque to
this program, modelled by carrying the source pixels through. -/
def cvResize (m : Mat) (w h : Int) : Mat :=
  ⟨h, w, m.pixels⟩

/-- `cv::cvtColor(·, ·, COLOR_BGR2RGB)` / `COLOR_RGB2BGR`: both swap the
first and third channel of every pixel and keep the dimensions. -/
def swapChannels (m : Mat) : Mat :=
  ⟨m.rows, m.cols, m.pixels.map (fun p => (p.2.2, p.2.1, p.1))⟩

/-- The candidate resolution list of `detect_resolutions`
(`src/main.cpp` lines 32–35), in the source's probe order. -/
def resolutions : List (Int × Int) :=
  [(3840, 2160), (2560, 1440), (1920, 1080),
   (1280, 720), (1280, 960), (800, 600), (640, 480)]

/-- The probe loop of `detect_resolutions` (`src/main.cpp` lines 37–49).
`rb k` is the device read-back (`cap.get` width/height pair) observed after
the `k`-th `cap.set` request; `cur` is the current
`(optimal_width, optimal_height)`.  On an exact match the read-back is
stored and probing stops; otherwise `cur` is left as it is. -/
def probe_res (rb : Nat → Int × Int) : List (Int × Int) → Nat → Int × Int → Int × Int
  | [], _, cur => cur
  | c :: cs, k, cur =>
      if rb k = c then rb k else probe_res rb cs (k + 1) cur

/-- `detect_resolutions` (`src/main.cpp` lines 31–50): probes the fixed
candidate list; `(640, 480)` is the initial value of
`optimal_width`/`optimal_height` from the `CameraApp` struct (lines 25–26),
untouched when no candidate matches. -/
def detect_resolutions (rb : Nat → Int × Int) : Int × Int :=
  probe_res rb resolutions 0 (640, 480)

/-- The candidate frame-rate list of `detect_fps`
(`src/main.cpp` line 54), in the source's probe order. -/
def fps_candidates : List ℚ := [60, 50, 30, 25, 24, 15, 10]

/-- The probe loop of `detect_fps` (`src/main.cpp` lines 56–64).  `rb k` is
the `cap.get(CAP_PROP_FPS)` read-back after the `k`-th `cap.set` request;
the first read-back strictly within `1.0` of its request is returned. -/
def probe_fps (rb : Nat → ℚ) : List ℚ → Nat → Option ℚ
  | [], _ => none
  | c :: cs, k =>
      if |rb k - c| < 1 then some (rb k) else probe_fps rb cs (k + 1)

/-- `detect_fps` (`src/main.cpp` lines 53–67): probes the candidate list;
if no candidate is accepted, `optimal_fps` is set to the final
`cap.get(CAP_PROP_FPS)` read-back, the oracle `fb` (line 66). -/
def detect_fps (rb : Nat → ℚ) (fb : ℚ) : ℚ :=
  (probe_fps rb fps_candidates 0).getD fb

/-- The mutable fields of the global `CameraApp` struct
(`src/main.cpp` lines 16–28) that the callbacks read or write, plus two
bookkeeping fields for the manually managed `Fl_RGB_Image`:
`fltk_img` is the raw pointer stored in the struct (`none` = `nullptr`) and
`img_live` records whether the allocation it points to is still live
(`delete` has not been called on it) — the C++ code never nulls the pointer
on `delete`, so the two can disagree. -/
structure AppState where
  is_running : Bool
  cap_open : Bool
  window_shown : Bool
  frame : Mat
  frame_rgb : Mat
  cached_frame : Mat
  fltk_img : Option Nat
  img_live : Bool
  optimal_width : Int
  optimal_height : Int
  optimal_fps : ℚ
deriving DecidableEq, Repr

/-- Outcome reported by `screenshot_callback`. -/
inductive SnapResult where
  /-- `fl_alert("截图失败", "没有可保存的图像数据")`: empty buffer. -/
  | noData : SnapResult
  /-- `fl_message` success dialog carrying the exact filename. -/
  | saved (filename : String) : SnapResult
  /-- `fl_alert("截图失败", "无法保存图像文件")`: `imwrite` failed. -/
  | writeFailed : SnapResult
deriving DecidableEq, Repr

/-- Observable effects of one `screenshot_callback` invocation:
the dialog shown and the file written (name and BGR contents), if any. -/
structure SnapOut where
  result : SnapResult
  written : Option (String × Mat)
deriving DecidableEq, Repr

/-- `screenshot_callback` (`src/main.cpp` lines 70–92).  The global state is
only read, never written.  Oracles: `now_time` is the wall-clock unix time
returned by `system_clock`, `write_ok` the success of `cv::imwrite`.
The buffer is converted back from RGB to BGR before encoding, and exactly
one write is attempted when the buffer is non-empty. -/
def screenshot_callback (s : AppState) (now_time : Nat) (write_ok : Bool) : SnapOut :=
  if s.cached_frame.isEmpty then
    ⟨.noData, none⟩
  else
    let filename := "screenshot_" ++ toString now_time ++ ".png"
    let bgr_frame := swapChannels s.cached_frame
    if write_ok then ⟨.saved filename, some (filename, bgr_frame)⟩
    else ⟨.writeFailed, none⟩

/-- Observable outcome of one `update_frame` tick: the state afterwards,
whether an error dialog was shown, whether `cap.retrieve` was called,
the `Fl::repeat_timeout` delay if one was scheduled, the pointer passed to
`delete` if any, and whether a repaint was requested. -/
structure TickOut where
  state : AppState
  alerted : Bool
  retrieve_attempted : Bool
  sched : Option ℚ
  deleted_img : Option Nat
  repainted : Bool
deriving DecidableEq, Repr

/-- `update_frame` (`src/main.cpp` lines 95–141).  Oracles: `grab_ok` is the
result of `cap.grab()`, `retrieved` the result of `cap.retrieve(frame)`
(`none` = failure, `some raw` = the decoded raw frame), `new_ptr` the
address of the freshly allocated `Fl_RGB_Image`.  The success path resizes
to the negotiated resolution, converts BGR→RGB, copies into the display
buffer, replaces (deleting) the previous image object, repaints, and
re-arms the timer with delay `1 / optimal_fps`. -/
def update_frame (s : AppState) (grab_ok : Bool) (retrieved : Option Mat)
    (new_ptr : Nat) : TickOut :=
  if !s.is_running then
    ⟨s, false, false, none, none, false⟩
  else if !grab_ok then
    ⟨{ s with is_running := false }, true, false, none, none, false⟩
  else
    match retrieved with
    | none => ⟨{ s with is_running := false }, true, true, none, none, false⟩
    | some raw =>
        let resized := cvResize raw s.optimal_width s.optimal_height
        let rgb := swapChannels resized
        ⟨{ s with frame := resized, frame_rgb := rgb, cached_frame := rgb,
                  fltk_img := some new_ptr, img_live := true },
         false, true, some (1 / s.optimal_fps), s.fltk_img, true⟩

/-- Observable outcome of one `window_close_callback` invocation:
the state afterwards, the pointer passed to `delete` if any, and whether
that `delete` hit an allocation that was already freed (a double free). -/
structure CloseOut where
  state : AppState
  freed : Option Nat
  double_free : Bool
deriving DecidableEq, Repr

/-- `window_close_callback` (`src/main.cpp` lines 144–152): clears the run
flag, releases the capture session (`cv::VideoCapture::release` is
idempotent), deletes the image object when the stored pointer is non-null —
note the pointer field itself is NOT reset to null — and hides the window. -/
def window_close_callback (s : AppState) : CloseOut :=
  let s1 := { s with is_running := false, cap_open := false, window_shown := false }
  match s.fltk_img with
  | none => ⟨s1, none, false⟩
  | some p => ⟨{ s1 with img_live := false }, some p, !s.img_live⟩

/-- The application state right after the startup sequence of `main`
(`src/main.cpp` lines 156–198): capability probing, then pre-allocation of
`frame_rgb` and `cached_frame` at the negotiated size (lines 167–168;
`cv::Mat::create` leaves the contents uninitialised — oracles `m1`, `m2`),
then window construction.  `frame` is still default-constructed, no
`Fl_RGB_Image` exists yet, and the first tick has not run. -/
def startup (rbres : Nat → Int × Int) (rbfps : Nat → ℚ) (fb : ℚ)
    (m1 m2 : List Pixel) : AppState :=
  let wh := detect_resolutions rbres
  { is_running := true
    cap_open := true
    window_shown := true
    frame := ⟨0, 0, []⟩
    frame_rgb := Mat.create wh.2 wh.1 m1
    cached_frame := Mat.create wh.2 wh.1 m2
    fltk_img := none
    img_live := false
    optimal_width := wh.1
    optimal_height := wh.2
    optimal_fps := detect_fps rbfps fb }

/-- Reachability of an application state from another by any interleaving of
timer ticks and window closes (the snapshot exporter never writes the
application state, so it contributes no step). -/
inductive Reach : AppState → AppState → Prop
  | refl (s : AppState) : Reach s s
  | tick (s t : AppState) (g : Bool) (r : Option Mat) (np : Nat)
      (h : Reach s t) : Reach s (update_frame t g r np).state
  | close (s t : AppState) (h : Reach s t) : Reach s (window_close_callback t).state

/-! ## Helper lemmas about the probe loops -/

/-- If the first `i` read-backs all miss their candidates and the `i`-th hits,
the resolution probe stops at probe `i` and returns its read-back. -/
theorem probe_res_hit (rb : Nat → Int × Int) (cs : List (Int × Int)) (k : Nat)
    (cur : Int × Int) (i : Nat) (hi : i < cs.length)
    (hbef : ∀ j, j < i → rb (k + j) ≠ cs.getD j (0, 0))
    (hmatch : rb (k + i) = cs.getD i (0, 0)) :
    probe_res rb cs k cur = rb (k + i) := by
  induction cs generalizing k i with
  | nil => simp at hi
  | cons c cs ih =>
      cases i with
      | zero =>
          simp only [List.getD_cons_zero, Nat.add_zero] at hmatch
          simp [probe_res, hmatch]
      | succ i =>
          have hne : rb k ≠ c := by
            have := hbef 0 (Nat.succ_pos i)
            simpa using this
          rw [probe_res, if_neg hne]
          have hres := ih (k + 1) i (by simpa using hi)
            (fun j hj => by
              have := hbef (j + 1) (Nat.succ_lt_succ hj)
              simpa [Nat.add_comm, Nat.add_assoc, Nat.add_left_comm] using this)
            (by
              have := hmatch
              simpa [Nat.add_comm, Nat.add_assoc, Nat.add_left_comm] using this)
          rw [hres]
          congr 1
          omega

/-- If every read-back misses its candidate, the resolution probe leaves the
accumulator (the prior `optimal_width`/`optimal_height`) untouched. -/
theorem probe_res_miss (rb : Nat → Int × Int) (cs : List (Int × Int)) (k : Nat)
    (cur : Int × Int)
    (h : ∀ j, j < cs.length → rb (k + j) ≠ cs.getD j (0, 0)) :
    probe_res rb cs k cur = cur := by
  induction cs generalizing k with
  | nil => simp [probe_res]
  | cons c cs ih =>
      have hne : rb k ≠ c := by
        have := h 0 (Nat.succ_pos _)
        simpa using this
      rw [probe_res, if_neg hne]
      exact ih (k + 1) (fun j hj => by
        have := h (j + 1) (Nat.succ_lt_succ hj)
        simpa [Nat.add_comm, Nat.add_assoc, Nat.add_left_comm] using this)

/-- The resolution probe yields either the untouched accumulator or a
candidate from the list. -/
theorem probe_res_mem (rb : Nat → Int × Int) (cs : List (Int × Int)) (k : Nat)
    (cur : Int × Int) :
    probe_res rb cs k cur = cur ∨ probe_res rb cs k cur ∈ cs := by
  induction cs generalizing k with
  | nil => simp [probe_res]
  | cons c cs ih =>
      by_cases h : rb k = c
      · right
        simp [probe_res, h]
      · rw [probe_res, if_neg h]
        rcases ih (k + 1) with h1 | h1
        · exact Or.inl h1
        · exact Or.inr (List.mem_cons_of_mem _ h1)

/-- Both components of the negotiated resolution are nonzero: the result is
either the default `(640, 480)` or one of the nonzero candidates. -/
theorem detect_resolutions_ne_zero (rb : Nat → Int × Int) :
    (detect_resolutions rb).1 ≠ 0 ∧ (detect_resolutions rb).2 ≠ 0 := by
  have hmem := probe_res_mem rb resolutions 0 (640, 480)
  rw [detect_resolutions]
  revert hmem
  generalize probe_res rb resolutions 0 (640, 480) = x
  intro hmem
  rcases hmem with h | h
  · subst h
    exact ⟨by norm_num, by norm_num⟩
  · simp only [resolutions, List.mem_cons, List.not_mem_nil, or_false] at h
    rcases h with h | h | h | h | h | h | h <;> subst h <;> exact ⟨by norm_num, by norm_num⟩

/-- If the first `i` frame-rate read-backs are all at least `1.0` from their
requests and the `i`-th is strictly within `1.0`, the frame-rate probe stops
at probe `i` and returns its read-back. -/
theorem probe_fps_hit (rb : Nat → ℚ) (cs : List ℚ) (k : Nat) (i : Nat)
    (hi : i < cs.length)
    (hbef : ∀ j, j < i → ¬|rb (k + j) - cs.getD j 0| < 1)
    (hmatch : |rb (k + i) - cs.getD i 0| < 1) :
    probe_fps rb cs k = some (rb (k + i)) := by
  induction cs generalizing k i with
  | nil => simp at hi
  | cons c cs ih =>
      cases i with
      | zero =>
          simp only [List.getD_cons_zero, Nat.add_zero] at hmatch
          simp [probe_fps, hmatch]
      | succ i =>
          have hne : ¬|rb k - c| < 1 := by
            have := hbef 0 (Nat.succ_pos i)
            simpa using this
          rw [probe_fps, if_neg hne]
          have hres := ih (k + 1) i (by simpa using hi)
            (fun j hj => by
              have := hbef (j + 1) (Nat.succ_lt_succ hj)
              simpa [Nat.add_comm, Nat.add_assoc, Nat.add_left_comm] using this)
            (by
              have := hmatch
              simpa [Nat.add_comm, Nat.add_assoc, Nat.add_left_comm] using this)
          rw [hres]
          congr 2
          omega

/-- If every frame-rate read-back is at least `1.0` from its request, the
frame-rate probe accepts nothing. -/
theorem probe_fps_miss (rb : Nat → ℚ) (cs : List ℚ) (k : Nat)
    (h : ∀ j, j < cs.length → ¬|rb (k + j) - cs.getD j 0| < 1) :
    probe_fps rb cs k = none := by
  induction cs generalizing k with
  | nil => simp [probe_fps]
  | cons c cs ih =>
      have hne : ¬|rb k - c| < 1 := by
        have := h 0 (Nat.succ_pos _)
        simpa using this
      rw [probe_fps, if_neg hne]
      exact ih (k + 1) (fun j hj => by
        have := h (j + 1) (Nat.succ_lt_succ hj)
        simpa [Nat.add_comm, Nat.add_assoc, Nat.add_left_comm] using this)

/-! ## Claim theorems -/

/-- C1 (counterexample): the claim asserts that when no resolution candidate
matches exactly, the negotiated resolution equals the read-back of the last
(lowest) candidate attempted.  With a device whose read-back is always
`(0, 0)` no candidate matches, the last read-back is `(0, 0)`, yet
`detect_resolutions` returns `(640, 480)` — the untouched initial defaults of
the `CameraApp` struct, not the last read-back. -/
theorem detect_resolutions_fallback_counterexample :
    detect_resolutions (fun _ => ((0 : Int), (0 : Int))) = (640, 480) ∧
    ((640, 480) : Int × Int) ≠ ((0 : Int), (0 : Int)) := by
  constructor
  · decide
  · decide

/-- C1 (amended): the Capability Prober requests the fixed candidate list in
order and accepts the first candidate whose read-back width and height
exactly equal the request, stopping there; if no candidate matches exactly,
the negotiated resolution keeps the initial default `(640, 480)` (the struct
initialisers), which need not equal any read-back. -/
theorem detect_resolutions_first_match_or_default (rb : Nat → Int × Int) :
    (∀ i, i < resolutions.length →
        (∀ j, j < i → rb j ≠ resolutions.getD j (0, 0)) →
        rb i = resolutions.getD i (0, 0) →
        detect_resolutions rb = rb i)
    ∧ ((∀ j, j < resolutions.length → rb j ≠ resolutions.getD j (0, 0)) →
        detect_resolutions rb = (640, 480)) := by
  constructor
  · intro i hi hbef hmatch
    have := probe_res_hit rb resolutions 0 (640, 480) i hi
      (by simpa using hbef) (by simpa using hmatch)
    simpa [detect_resolutions] using this
  · intro h
    exact probe_res_miss rb resolutions 0 (640, 480) (by simpa using h)

/-- C1 (witness): a device matching exactly the third candidate `1920×1080`
is negotiated to `1920×1080`; a device that never echoes a request exactly is
negotiated to the default `640×480`. -/
theorem detect_resolutions_first_match_witness :
    detect_resolutions (fun k => if k = 2 then (1920, 1080) else (1, 1)) = (1920, 1080) ∧
    detect_resolutions (fun _ => (1, 1)) = (640, 480) := by
  constructor
  · exact (detect_resolutions_first_match_or_default _).1 2 (by decide)
      (by decide) (by decide)
  · exact (detect_resolutions_first_match_or_default _).2 (by decide)

/-- C4: the frame-rate prober requests candidates in the fixed order and
accepts the first whose read-back lies strictly within `1.0` of the request,
stopping there; with no candidate in tolerance, the negotiated fps is the
device's current report (the final `cap.get`).  In particular, read-backs
`{59.9, 49.0, 30.0}` against requests `{60, 50, 30}` select `59.9`. -/
theorem detect_fps_first_tolerant_or_fallback (rb : Nat → ℚ) (fb : ℚ) :
    (∀ i, i < fps_candidates.length →
        (∀ j, j < i → ¬|rb j - fps_candidates.getD j 0| < 1) →
        |rb i - fps_candidates.getD i 0| < 1 →
        detect_fps rb fb = rb i)
    ∧ ((∀ j, j < fps_candidates.length → ¬|rb j - fps_candidates.getD j 0| < 1) →
        detect_fps rb fb = fb)
    ∧ detect_fps (fun k => [(599 : ℚ) / 10, 49, 30].getD k 0) fb = 599 / 10 := by
  refine ⟨?_, ?_, ?_⟩
  · intro i hi hbef hmatch
    have h := probe_fps_hit rb fps_candidates 0 i hi
      (by simpa using hbef) (by simpa using hmatch)
    simp only [detect_fps, h, Option.getD_some, Nat.zero_add]
  · intro h
    have h2 := probe_fps_miss rb fps_candidates 0 (by simpa using h)
    simp only [detect_fps, h2, Option.getD_none]
  · have h : probe_fps (fun k => [(599 : ℚ) / 10, 49, 30].getD k 0)
        fps_candidates 0 = some (599 / 10) := by
      rw [fps_candidates, probe_fps, if_pos (by rw [abs_lt]; constructor <;> norm_num)]
      norm_num
    simp only [detect_fps, h, Option.getD_some]

/-- C4 (witness): a device whose only in-tolerance read-back is `30` for the
third candidate is negotiated to `30`; a device reporting `0` everywhere,
with final read `7`, falls back to `7`. -/
theorem detect_fps_first_tolerant_witness :
    detect_fps (fun k => if k = 2 then 30 else 1000) 7 = 30 ∧
    detect_fps (fun _ => 0) 7 = 7 := by
  constructor
  · have h := (detect_fps_first_tolerant_or_fallback
      (fun k => if k = 2 then 30 else 1000) 7).1 2 (by decide)
      (fun j hj => by interval_cases j <;> norm_num [fps_candidates])
      (by norm_num [fps_candidates])
    simpa using h
  · exact (detect_fps_first_tolerant_or_fallback (fun _ => 0) 7).2.1
      (fun j hj => by
        have hj7 : j < 7 := by simpa [fps_candidates] using hj
        interval_cases j <;> norm_num [fps_candidates, abs_lt])

/-- C2 (amended): the Snapshot Exporter reports a failure and writes nothing
whenever the Display Buffer is empty in the `cv::Mat::empty()` sense; but
"empty" does not mean "no frame ever rendered": `main` pre-allocates
`cached_frame` at the negotiated size before the window is shown, so right
after startup the buffer is already non-empty for every device behaviour,
and the guard cannot fire then. -/
theorem screenshot_empty_guard :
    (∀ (s : AppState) (t : Nat) (wr : Bool),
        s.cached_frame.isEmpty = true →
        screenshot_callback s t wr = ⟨.noData, none⟩)
    ∧ (∀ (rbres : Nat → Int × Int) (rbfps : Nat → ℚ) (fb : ℚ) (m1 m2 : List Pixel),
        (startup rbres rbfps fb m1 m2).cached_frame.isEmpty = false) := by
  constructor
  · intro s t wr h
    simp [screenshot_callback, h]
  · intro rbres rbfps fb m1 m2
    obtain ⟨h1, h2⟩ := detect_resolutions_ne_zero rbres
    simp [startup, Mat.create, Mat.isEmpty, h1, h2]

/-- C2 (witness): on a state whose display buffer is a default-constructed
(truly empty) matrix, the exporter reports `noData` and writes nothing. -/
theorem screenshot_empty_guard_witness :
    screenshot_callback
      { is_running := true, cap_open := true, window_shown := true,
        frame := ⟨0, 0, []⟩, frame_rgb := ⟨0, 0, []⟩, cached_frame := ⟨0, 0, []⟩,
        fltk_img := none, img_live := false,
        optimal_width := 640, optimal_height := 480, optimal_fps := 30 } 5 true
      = ⟨.noData, none⟩ :=
  screenshot_empty_guard.1 _ 5 true rfl

/-- C2 (counterexample): the claim asserts that a snapshot request issued
after startup but before the first successful frame update reports a failure
and writes no file.  On the concrete post-startup state (device never echoes
a request, so the defaults `640×480` are kept; `cached_frame` pre-allocated
with arbitrary contents), a snapshot at time `123` writes
`screenshot_123.png` and reports success — no failure occurs. -/
theorem screenshot_after_startup_counterexample :
    (screenshot_callback (startup (fun _ => (0, 0)) (fun _ => 0) 30 [] []) 123 true).written
      = some ("screenshot_123.png", ⟨480, 640, []⟩)
    ∧ (screenshot_callback (startup (fun _ => (0, 0)) (fun _ => 0) 30 [] []) 123 true).result
      = .saved "screenshot_123.png" := by
  have hres : detect_resolutions (fun _ => (0, 0)) = (640, 480) := by decide
  constructor <;>
    · simp [screenshot_callback, startup, hres, Mat.isEmpty, Mat.create, swapChannels]
      rfl

/-- C3: a first close on a state holding a live image object deletes it
without a double free but leaves `fltk_img` still pointing at the freed
allocation (the code never nulls it), so a second close passes the
`if (app.fltk_img)` guard and deletes the same allocation again — a double
free, contradicting the claim that the second close is a no-op. -/
theorem window_close_double_free :
    (window_close_callback
        { is_running := true, cap_open := true, window_shown := true,
          frame := ⟨0, 0, []⟩, frame_rgb := ⟨480, 640, []⟩,
          cached_frame := ⟨480, 640, []⟩, fltk_img := some 1, img_live := true,
          optimal_width := 640, optimal_height := 480, optimal_fps := 30 }).double_free
      = false
    ∧ (window_close_callback
        { is_running := true, cap_open := true, window_shown := true,
          frame := ⟨0, 0, []⟩, frame_rgb := ⟨480, 640, []⟩,
          cached_frame := ⟨480, 640, []⟩, fltk_img := some 1, img_live := true,
          optimal_width := 640, optimal_height := 480, optimal_fps := 30 }).state.fltk_img
      = some 1
    ∧ (window_close_callback (window_close_callback
        { is_running := true, cap_open := true, window_shown := true,
          frame := ⟨0, 0, []⟩, frame_rgb := ⟨480, 640, []⟩,
          cached_frame := ⟨480, 640, []⟩, fltk_img := some 1, img_live := true,
          optimal_width := 640, optimal_height := 480, optimal_fps := 30 }).state).double_free
      = true :=
  ⟨rfl, rfl, rfl⟩

/-- C5: in a running tick where the latch succeeds but decode fails, the
only state change is `is_running := false`; the display buffer (and every
other buffer) is untouched, no deletion, repaint, or rescheduling happens,
and the error dialog is shown. -/
theorem update_frame_decode_failure (s : AppState) (np : Nat)
    (h : s.is_running = true) :
    update_frame s true none np =
      ⟨{ s with is_running := false }, true, true, none, none, false⟩
    ∧ (update_frame s true none np).state.cached_frame = s.cached_frame := by
  constructor <;> simp [update_frame, h]

/-- C5 (witness): decode failure on a concrete running state stops the loop
and leaves the cached frame exactly as it was. -/
theorem update_frame_decode_failure_witness :
    update_frame
      { is_running := true, cap_open := true, window_shown := true,
        frame := ⟨0, 0, []⟩, frame_rgb := ⟨1, 1, [(1, 2, 3)]⟩,
        cached_frame := ⟨1, 1, [(1, 2, 3)]⟩, fltk_img := some 1, img_live := true,
        optimal_width := 1, optimal_height := 1, optimal_fps := 30 } true none 9
      = ⟨{ is_running := false, cap_open := true, window_shown := true,
           frame := ⟨0, 0, []⟩, frame_rgb := ⟨1, 1, [(1, 2, 3)]⟩,
           cached_frame := ⟨1, 1, [(1, 2, 3)]⟩, fltk_img := some 1, img_live := true,
           optimal_width := 1, optimal_height := 1, optimal_fps := 30 },
         true, true, none, none, false⟩ :=
  (update_frame_decode_failure _ 9 rfl).1

/-- C6: in a running tick where the capture latch (`grab`) fails, no decode
is attempted, an error dialog is shown, the stopped flag is set, and no
further tick is scheduled. -/
theorem update_frame_grab_failure (s : AppState) (r : Option Mat) (np : Nat)
    (h : s.is_running = true) :
    update_frame s false r np =
      ⟨{ s with is_running := false }, true, false, none, none, false⟩ := by
  simp [update_frame, h]

/-- C6 (witness): latch failure on a concrete running state reports the
error, skips decode, stops the loop and schedules nothing. -/
theorem update_frame_grab_failure_witness :
    update_frame
      { is_running := true, cap_open := true, window_shown := true,
        frame := ⟨0, 0, []⟩, frame_rgb := ⟨1, 1, [(1, 2, 3)]⟩,
        cached_frame := ⟨1, 1, [(1, 2, 3)]⟩, fltk_img := none, img_live := false,
        optimal_width := 1, optimal_height := 1, optimal_fps := 30 } false none 9
      = ⟨{ is_running := false, cap_open := true, window_shown := true,
           frame := ⟨0, 0, []⟩, frame_rgb := ⟨1, 1, [(1, 2, 3)]⟩,
           cached_frame := ⟨1, 1, [(1, 2, 3)]⟩, fltk_img := none, img_live := false,
           optimal_width := 1, optimal_height := 1, optimal_fps := 30 },
         true, false, none, none, false⟩ :=
  update_frame_grab_failure _ none 9 rfl

/-- C7: invoked with a non-empty display buffer at unix time `t`, the
exporter converts the buffer from RGB back to BGR channel order and attempts
exactly one write of the single file `screenshot_<t>.png`; on write success
it reports success with that exact filename, on write failure it reports
failure and retries nothing. -/
theorem screenshot_success_exact_filename (s : AppState) (t : Nat) (wr : Bool)
    (h : s.cached_frame.isEmpty = false) :
    screenshot_callback s t wr =
      if wr then
        ⟨.saved ("screenshot_" ++ toString t ++ ".png"),
         some ("screenshot_" ++ toString t ++ ".png", swapChannels s.cached_frame)⟩
      else ⟨.writeFailed, none⟩ := by
  rcases wr with _ | _ <;> simp [screenshot_callback, h]

/-- C7 (witness): a 1×1 RGB buffer `(10, 20, 30)` snapshotted at time `77`
is written to `screenshot_77.png` with BGR contents `(30, 20, 10)` and the
success dialog names exactly that file. -/
theorem screenshot_success_exact_filename_witness :
    screenshot_callback
      { is_running := true, cap_open := true, window_shown := true,
        frame := ⟨0, 0, []⟩, frame_rgb := ⟨1, 1, [(10, 20, 30)]⟩,
        cached_frame := ⟨1, 1, [(10, 20, 30)]⟩, fltk_img := some 1, img_live := true,
        optimal_width := 1, optimal_height := 1, optimal_fps := 30 } 77 true
      = ⟨.saved "screenshot_77.png",
         some ("screenshot_77.png", ⟨1, 1, [(30, 20, 10)]⟩)⟩ := by
  have h := screenshot_success_exact_filename
    { is_running := true, cap_open := true, window_shown := true,
      frame := ⟨0, 0, []⟩, frame_rgb := ⟨1, 1, [(10, 20, 30)]⟩,
      cached_frame := ⟨1, 1, [(10, 20, 30)]⟩, fltk_img := some 1, img_live := true,
      optimal_width := 1, optimal_height := 1, optimal_fps := 30 } 77 true rfl
  simpa [swapChannels] using h

/-- C8: in every state reachable from startup by ticks and closes, the
display buffer's dimensions equal the negotiated optimal resolution, and
that resolution is exactly what `detect_resolutions` negotiated at startup —
the initial allocation creates the buffer at that size, every successful
tick rewrites it at exactly that size, and no operation changes it. -/
theorem display_buffer_dims_invariant (rbres : Nat → Int × Int) (rbfps : Nat → ℚ)
    (fb : ℚ) (m1 m2 : List Pixel) (s : AppState)
    (h : Reach (startup rbres rbfps fb m1 m2) s) :
    s.cached_frame.rows = s.optimal_height
    ∧ s.cached_frame.cols = s.optimal_width
    ∧ s.optimal_width = (detect_resolutions rbres).1
    ∧ s.optimal_height = (detect_resolutions rbres).2 := by
  induction h with
  | refl => simp [startup, Mat.create]
  | tick t g r np h ih =>
      obtain ⟨h1, h2, h3, h4⟩ := ih
      by_cases hr : t.is_running
      · by_cases hg : g
        · cases r with
          | none =>
              refine ⟨?_, ?_, ?_, ?_⟩ <;> simpa [update_frame, hr, hg] using by assumption
          | some raw =>
              refine ⟨?_, ?_, ?_, ?_⟩ <;>
                simp [update_frame, hr, hg, cvResize, swapChannels, h3, h4]
        · refine ⟨?_, ?_, ?_, ?_⟩ <;> simpa [update_frame, hr, hg] using by assumption
      · refine ⟨?_, ?_, ?_, ?_⟩ <;> simpa [update_frame, hr] using by assumption
  | close t h ih =>
      obtain ⟨h1, h2, h3, h4⟩ := ih
      cases hfi : t.fltk_img <;>
        refine ⟨?_, ?_, ?_, ?_⟩ <;> simpa [window_close_callback, hfi] using by assumption

/-- C8 (witness): the dimension invariant instantiated right after a
concrete startup (device never echoes, so `640×480` is negotiated). -/
theorem display_buffer_dims_invariant_witness :
    (startup (fun _ => (1, 1)) (fun _ => 0) 30 [] []).cached_frame.rows
      = (startup (fun _ => (1, 1)) (fun _ => 0) 30 [] []).optimal_height
    ∧ (startup (fun _ => (1, 1)) (fun _ => 0) 30 [] []).cached_frame.cols
      = (startup (fun _ => (1, 1)) (fun _ => 0) 30 [] []).optimal_width
    ∧ (startup (fun _ => (1, 1)) (fun _ => 0) 30 [] []).optimal_width
      = (detect_resolutions (fun _ => (1, 1))).1
    ∧ (startup (fun _ => (1, 1)) (fun _ => 0) 30 [] []).optimal_height
      = (detect_resolutions (fun _ => (1, 1))).2 :=
  display_buffer_dims_invariant (fun _ => (1, 1)) (fun _ => 0) 30 [] [] _
    (Reach.refl _)

/-- C9: once the stopped flag is cleared (`is_running = false`), a tick
callback invocation returns the state unchanged, shows no dialog, attempts
no decode, deletes nothing, repaints nothing and schedules no further tick;
the flag stays false along every reachable continuation; and no tick ever
hides the window — it stays as the user left it. -/
theorem stopped_no_more_ticks :
    (∀ (s : AppState) (g : Bool) (r : Option Mat) (np : Nat),
        s.is_running = false →
        update_frame s g r np = ⟨s, false, false, none, none, false⟩)
    ∧ (∀ (s t : AppState), Reach s t → s.is_running = false → t.is_running = false)
    ∧ (∀ (s : AppState) (g : Bool) (r : Option Mat) (np : Nat),
        (update_frame s g r np).state.window_shown = s.window_shown) := by
  have hstop : ∀ (s : AppState) (g : Bool) (r : Option Mat) (np : Nat),
      s.is_running = false →
      update_frame s g r np = ⟨s, false, false, none, none, false⟩ := by
    intro s g r np h
    simp [update_frame, h]
  refine ⟨hstop, ?_, ?_⟩
  · intro s t hreach hs
    induction hreach with
    | refl => exact hs
    | tick t g r np h ih =>
        rw [hstop t g r np ih]
        exact ih
    | close t h ih =>
        cases hfi : t.fltk_img <;> simp [window_close_callback, hfi]
  · intro s g r np
    by_cases hr : s.is_running
    · by_cases hg : g
      · cases r with
        | none => simp [update_frame, hr, hg]
        | some raw => simp [update_frame, hr, hg]
      · simp [update_frame, hr, hg]
    · simp [update_frame, hr]

/-- C9 (witness): on a concrete stopped state a tick with a perfectly good
frame does nothing at all, and a close keeps the flag down. -/
theorem stopped_no_more_ticks_witness :
    update_frame
      { is_running := false, cap_open := true, window_shown := true,
        frame := ⟨0, 0, []⟩, frame_rgb := ⟨1, 1, [(1, 2, 3)]⟩,
        cached_frame := ⟨1, 1, [(1, 2, 3)]⟩, fltk_img := some 1, img_live := true,
        optimal_width := 1, optimal_height := 1, optimal_fps := 30 }
      true (some ⟨1, 1, [(4, 5, 6)]⟩) 4
      = ⟨{ is_running := false, cap_open := true, window_shown := true,
           frame := ⟨0, 0, []⟩, frame_rgb := ⟨1, 1, [(1, 2, 3)]⟩,
           cached_frame := ⟨1, 1, [(1, 2, 3)]⟩, fltk_img := some 1, img_live := true,
           optimal_width := 1, optimal_height := 1, optimal_fps := 30 },
         false, false, none, none, false⟩
    ∧ (window_close_callback
        { is_running := false, cap_open := true, window_shown := true,
          frame := ⟨0, 0, []⟩, frame_rgb := ⟨1, 1, [(1, 2, 3)]⟩,
          cached_frame := ⟨1, 1, [(1, 2, 3)]⟩, fltk_img := some 1, img_live := true,
          optimal_width := 1, optimal_height := 1, optimal_fps := 30 }).state.is_running
      = false :=
  ⟨stopped_no_more_ticks.1 _ true (some ⟨1, 1, [(4, 5, 6)]⟩) 4 rfl,
   stopped_no_more_ticks.2.1 _ _ (Reach.close _ _ (Reach.refl _)) rfl⟩

/-- C10: every successful running tick re-arms the timer with delay exactly
`1 / optimal_fps`, with no guard on the sign of `optimal_fps` (the model's
total division stands in for the C++ expression `1.0 / app.optimal_fps`);
and the frame-rate prober's fallback path can deliver `optimal_fps = 0`
(a device reporting `0` everywhere), so positivity is not guaranteed. -/
theorem tick_delay_unguarded_reciprocal :
    (∀ (s : AppState) (raw : Mat) (np : Nat),
        s.is_running = true →
        (update_frame s true (some raw) np).sched = some (1 / s.optimal_fps))
    ∧ detect_fps (fun _ => 0) 0 = 0 := by
  constructor
  · intro s raw np h
    simp [update_frame, h]
  · have h := probe_fps_miss (fun _ => 0) fps_candidates 0 (fun j hj => by
      have hj7 : j < 7 := by simpa [fps_candidates] using hj
      interval_cases j <;> norm_num [fps_candidates, abs_lt])
    simp [detect_fps, h]

/-- C10 (witness): a successful tick on a state whose negotiated fps is `0`
re-arms the timer with the unguarded delay `1 / 0`. -/
theorem tick_delay_unguarded_reciprocal_witness :
    (update_frame
      { is_running := true, cap_open := true, window_shown := true,
        frame := ⟨0, 0, []⟩, frame_rgb := ⟨1, 1, [(1, 2, 3)]⟩,
        cached_frame := ⟨1, 1, [(1, 2, 3)]⟩, fltk_img := some 1, img_live := true,
        optimal_width := 1, optimal_height := 1, optimal_fps := 0 }
      true (some ⟨1, 1, [(4, 5, 6)]⟩) 4).sched = some (1 / (0 : ℚ)) :=
  tick_delay_unguarded_reciprocal.1 _ ⟨1, 1, [(4, 5, 6)]⟩ 4 rfl
